import Mathlib

/-!
Verification of the Orion regression-detection core: a shallow embedding of
the algorithm abstraction (pkg/algorithm.py), the algorithm factory
(pkg/algorithmFactory.py), the test-run orchestrator (pkg/runTest.py) and the
command-line entry point (orion.py), together with spec-level models of the
two concrete detectors (change-point and weighted anomaly detection), whose
source modules (pkg/edivisive.py, pkg/isolationForest.py, pkg/constants.py,
pkg/utils.py) are external to the inspected sources.
-/

namespace Orion

/-- Names of the two algorithms, from pkg/constants (module external to the
inspected sources; the values are fixed by their CLI usage and only their
distinctness matters to the control flow). -/
def EDIVISIVE : String := "EDivisive"

/-- Name of the isolation-forest algorithm, from pkg/constants. -/
def ISOLATION_FOREST : String := "isolation_forest"

/-- Structured output format constant, from pkg/constants (the CLI offers
exactly the choice between json and text output). -/
def JSON : String := "json"

/-- Tabular output format constant, from pkg/constants. -/
def TEXT : String := "text"

/-- One executed benchmark run: unique identifier, timestamp, and a mapping
from metric name to numeric value (rationals model the numeric values). -/
structure RunRecord where
  uuid : String
  timestamp : Nat
  metrics : List (String × ℚ)
deriving DecidableEq

/-- The ordered table of fetched run records (the result dataframe handed to
the orchestrator by the external fetch collaborator). -/
structure DataFrame where
  rows : List RunRecord
deriving DecidableEq

/-- Per-metric configuration of a test: the metric's name and its direction
(true when a higher value is better). -/
structure MetricCfg where
  name : String
  higherIsBetter : Bool
deriving DecidableEq

/-- Configuration of one named test: name, backing index identifier and the
list of configured metrics with their directions. -/
structure Test where
  name : String
  index : String
  metrics : List MetricCfg
deriving DecidableEq

/-- The keyword-argument bag threaded through orion.py cmd_analysis into
pkg/runTest.run: the two detection flags, the output format, and the
remaining data-scoping arguments that are forwarded to the fetch. -/
structure Options where
  hunter_analyze : Bool
  anomaly_detection : Bool
  output_format : String
  lookback : Option String
  save_data_path : String
  uuid : String
  baseline : String
  convert_tinyurl : Bool
  anomaly_window : Option Nat
  min_anomaly_percent : Option Nat
deriving DecidableEq

/-- The loaded configuration map: the backing-store location and the ordered
list of configured tests. -/
structure ConfigMap where
  es_url : String
  tests : List Test
deriving DecidableEq

/-- The per-test dataset accessor constructed by the orchestrator from the
test's index and the backing-store location. -/
structure Matcher where
  index : String
  es_url : String
deriving DecidableEq

/-- Value of a key in an association list of metrics. -/
def lookupMetric (ms : List (String × ℚ)) (k : String) : Option ℚ :=
  (ms.find? (fun p => p.1 == k)).map (fun p => p.2)

/-- The ordered series of one metric's values over the runs that carry the
metric (gaps are skipped, not zero-filled). -/
def metricSeries (df : DataFrame) (metric : String) : List ℚ :=
  df.rows.filterMap (fun r => lookupMetric r.metrics metric)

/-- Arithmetic mean of a rational series (0 for the empty series). -/
def listMean (xs : List ℚ) : ℚ :=
  if xs.length = 0 then 0 else xs.sum / (xs.length : ℚ)

/-- Population variance of a rational series (0 for the empty series). -/
def seriesVariance (xs : List ℚ) : ℚ :=
  if xs.length = 0 then 0
  else ((xs.map (fun x => (x - listMean xs) ^ 2)).sum) / (xs.length : ℚ)

/-- Squared difference of the means of the two segments split at index j. -/
def segMeansDiffSq (xs : List ℚ) (j : Nat) : ℚ :=
  (listMean (xs.take j) - listMean (xs.drop j)) ^ 2

/-- Modelled from the spec: the divergence statistic of a candidate split —
the squared difference of segment means normalised by the series variance
(scale invariant); a zero-variance series yields statistic 0, treated as no
change. The concrete detector module (pkg/edivisive.py) is external to the
inspected sources. -/
def divergenceStat (xs : List ℚ) (j : Nat) : ℚ :=
  let v := seriesVariance xs
  if v = 0 then 0 else segMeansDiffSq xs j / v

/-- Modelled from the spec: search over all candidate split indices
1 ≤ j < n for the one maximising the divergence statistic. -/
def bestSplit (xs : List ℚ) : Option (Nat × ℚ) :=
  ((List.range (xs.length - 1)).map (fun j => j + 1)).foldl
    (fun best j =>
      let s := divergenceStat xs j
      match best with
      | none => some (j, s)
      | some (bj, bs) => if bs < s then some (j, s) else some (bj, bs))
    none

/-- Modelled from the spec: significance threshold for accepting a split,
an explicit documented default (the original constant is not recoverable
from the inspected sources). -/
def cpSignificanceThreshold : ℚ := 1

/-- Modelled from the spec: minimum segment size below which no further
split is attempted, preventing single-point segments. -/
def cpMinSegmentSize : Nat := 2

/-- Modelled from the spec: recursive divisive search for accepted change
points — take the best split, accept it only when its statistic exceeds the
significance threshold, and recurse on both segments; the fuel argument
bounds the recursion depth by the series length. Returned indices are in
ascending order relative to the full series. -/
def eDivisiveSplits (threshold : ℚ) (minSize : Nat) : Nat → List ℚ → List Nat
  | 0, _ => []
  | fuel + 1, xs =>
    if xs.length < 2 * minSize then []
    else
      match bestSplit xs with
      | none => []
      | some (j, s) =>
        if s ≤ threshold then []
        else
          eDivisiveSplits threshold minSize fuel (xs.take j) ++ [j] ++
            (eDivisiveSplits threshold minSize fuel (xs.drop j)).map (fun m => m + j)

/-- Verdict of change-point detection on one metric series. -/
inductive CPVerdict where
  | insufficientData
  | regression
  | improvement
  | noChange
deriving DecidableEq

/-- Per-metric result of change-point detection: the verdict, every accepted
change-point index (ascending; the last one is the most recent and is the
actionable boundary), and the percent change across that boundary. -/
structure CPOutcome where
  verdict : CPVerdict
  changePoints : List Nat
  percentChange : ℚ
deriving DecidableEq

/-- Modelled from the spec: change-point detection on one metric series —
fewer than 2 runs yields the insufficient-data verdict with no split
attempted; otherwise the accepted splits are computed divisively, the most
recent one (if any) becomes the boundary, pre/post segment means classify
regression versus improvement using the metric's direction, and the percent
change across the boundary is reported. -/
def changePointDetect (series : List ℚ) (higherIsBetter : Bool) : CPOutcome :=
  if series.length < 2 then
    { verdict := .insufficientData, changePoints := [], percentChange := 0 }
  else
    let splits := eDivisiveSplits cpSignificanceThreshold cpMinSegmentSize
      series.length series
    match splits.getLast? with
    | none => { verdict := .noChange, changePoints := [], percentChange := 0 }
    | some j =>
      let pre := listMean (series.take j)
      let post := listMean (series.drop j)
      let pct := if pre = 0 then 0 else (post - pre) / pre * 100
      let worse := if higherIsBetter then post < pre else pre < post
      { verdict := if worse then .regression else .improvement,
        changePoints := splits, percentChange := pct }

/-- Modelled from the spec: trailing moving average of the preceding
`window` values before position i; positions before the window fills have
no baseline. -/
def movingAvg (window : Nat) (xs : List ℚ) (i : Nat) : Option ℚ :=
  if i < window ∨ window = 0 then none
  else some (listMean ((xs.take i).drop (i - window)))

/-- Modelled from the spec: percent deviation of position i of a series from
its trailing moving average (0 when the average is 0, by convention). -/
def percentDev (window : Nat) (xs : List ℚ) (i : Nat) : Option ℚ :=
  (movingAvg window xs i).map (fun avg =>
    if avg = 0 then 0 else (xs.getD i 0 - avg) / avg * 100)

/-- Modelled from the spec: the explicitly seeded deterministic random
source used by the isolation-style scorer (a linear congruential step). -/
def lcgNext (s : Nat) : Nat := (s * 1103515245 + 12345) % 2 ^ 31

/-- Modelled from the spec: the documented default random seed of the
anomaly detector (an explicit choice; the original default is not
recoverable from the inspected sources). -/
def anomalySeed : Nat := 42

/-- A rational value between lo and hi selected by a random state. -/
def ratBetween (lo hi : ℚ) (s : Nat) : ℚ :=
  lo + (hi - lo) * ((s % 1000 : Nat) : ℚ) / 1000

/-- Modelled from the spec: isolation-style path length of a target
deviation vector among a set of vectors — repeatedly pick a random
dimension and a random split value within that dimension's range and keep
the side containing the target, until the target is isolated (or fuel runs
out); shorter paths mean more anomalous. Returns the depth and the final
random state. -/
def isoPathLength (dims : Nat) : Nat → Nat → List (List ℚ) → List ℚ → Nat × Nat
  | 0, s, _, _ => (0, s)
  | fuel + 1, s, pts, target =>
    if pts.length ≤ 1 ∨ dims = 0 then (0, s)
    else
      let s1 := lcgNext s
      let d := s1 % dims
      let tv := target.getD d 0
      let vals := pts.map (fun p => p.getD d 0)
      let lo := vals.foldl min tv
      let hi := vals.foldl max tv
      let s2 := lcgNext s1
      let c := ratBetween lo hi s2
      let side := decide (tv ≤ c)
      let kept := pts.filter (fun p => decide (p.getD d 0 ≤ c) == side)
      let r := isoPathLength dims fuel s2 kept target
      (r.1 + 1, r.2)

/-- The aligned metric-value vectors of the runs: one vector per run, one
component per configured metric (a missing metric contributes 0 to the
model's vector). -/
def runVectors (df : DataFrame) (test : Test) : List (List ℚ) :=
  df.rows.map (fun r =>
    test.metrics.map (fun m => (lookupMetric r.metrics m.name).getD 0))

/-- Component d of each vector of a list of vectors. -/
def column (vs : List (List ℚ)) (d : Nat) : List ℚ :=
  vs.map (fun v => v.getD d 0)

/-- Modelled from the spec: the percent-deviation vector of run i — per
configured metric, the deviation of that metric's series at i from its
trailing moving average; none while the window has not filled. -/
def devVector (vs : List (List ℚ)) (dims window i : Nat) : Option (List ℚ) :=
  if i < window ∨ window = 0 then none
  else some ((List.range dims).map (fun d =>
    (percentDev window (column vs d) i).getD 0))

/-- One flagged anomalous run: its index in the dataset and its composite
score. -/
structure AnomalyPoint where
  runIndex : Nat
  score : ℚ
deriving DecidableEq

/-- Modelled from the spec: the weighted, windowed anomaly detection pass —
compute the deviation vector of every run past the window, score each by
the uniformly weighted mean of its absolute per-metric deviations combined
with an isolation-style factor from the seeded random source, and flag the
runs whose composite score exceeds the minimum anomaly percent. Runs before
the window fills are never flagged. -/
def anomalyDetect (df : DataFrame) (test : Test) (opts : Options) :
    List AnomalyPoint :=
  let window := opts.anomaly_window.getD 5
  let minPct : ℚ := ((opts.min_anomaly_percent.getD 10 : Nat) : ℚ)
  let vs := runVectors df test
  let dims := test.metrics.length
  let pts := (List.range vs.length).filterMap (fun i =>
    (devVector vs dims window i).map (fun v => (i, v)))
  let cloud := pts.map (fun p => p.2)
  (pts.foldl (fun st p =>
      let wmean :=
        if dims = 0 then 0
        else ((p.2.map (fun x => max x (-x))).sum) / (dims : ℚ)
      let r := isoPathLength dims (cloud.length + 1) st.2 cloud p.2
      let isoFactor : ℚ := (((cloud.length + 1) - r.1 : Nat) : ℚ) /
        (((cloud.length + 1) : Nat) : ℚ)
      let score := wmean * isoFactor
      (if minPct < score then st.1 ++ [⟨p.1, score⟩] else st.1, r.2))
    (([] : List AnomalyPoint), anomalySeed)).1

/-- The two concrete algorithm implementations behind the shared contract. -/
inductive AlgoImpl where
  | EDivisive
  | IsolationForestWeightedMean
deriving DecidableEq

/-- The result of one detection pass: change-point outcomes per metric for
the change-point detector, flagged anomalies for the anomaly detector. -/
inductive DetectionResult where
  | changePoints (perMetric : List (String × CPOutcome))
  | anomalies (flagged : List AnomalyPoint)
deriving DecidableEq

/-- Modelled from the spec: the single detection pass of an algorithm
instance — a pure function of the implementation, the dataframe, the test
and the options (the anomaly scorer's randomness is fixed by the explicit
seed), performed once per instance. -/
def detect (impl : AlgoImpl) (df : DataFrame) (test : Test) (opts : Options) :
    DetectionResult :=
  match impl with
  | .EDivisive =>
    .changePoints (test.metrics.map (fun m =>
      (m.name, changePointDetect (metricSeries df m.name) m.higherIsBetter)))
  | .IsolationForestWeightedMean =>
    .anomalies (anomalyDetect df test opts)

/-- A raised Python error: pkg/algorithm.py and pkg/algorithmFactory.py
raise ValueError with a message. -/
inductive PyError where
  | valueError (msg : String)
deriving DecidableEq

/-- Modelled from the spec: the tabular rendering of a detection result (the
concrete renderers live in the detector modules, external to the inspected
sources); a pure function of the detection result only. -/
def renderTable (d : DetectionResult) : String :=
  match d with
  | .changePoints per =>
    String.intercalate ", " (per.map (fun p =>
      p.1 ++ ":" ++
        (match p.2.verdict with
         | .insufficientData => "insufficient data"
         | .regression => "regression"
         | .improvement => "improvement"
         | .noChange => "no change")))
  | .anomalies flagged =>
    String.intercalate ", " (flagged.map (fun a => toString a.runIndex))

/-- The per-test result datum placed in the report: either the structured
(json) rendering or the tabular (text) rendering, both carrying the one
detection result they derive from. -/
inductive ResultData where
  | structured (d : DetectionResult)
  | tabular (s : String)
deriving DecidableEq

/-- An algorithm instance (pkg/algorithm.py Algorithm together with the
concrete subclass chosen by the factory): the constructor arguments, the
implementation tag, and the detection result of the instance's single
detection pass (modelled from the spec: both renderers derive from the
identical underlying pass, never re-running detection per renderer). -/
structure Algorithm where
  impl : AlgoImpl
  matcher : Matcher
  dataframe : DataFrame
  test : Test
  options : Options
  metrics_config : List (String × ℚ)
  detection : DetectionResult
deriving DecidableEq

/-- Construction of an algorithm instance: store the arguments and perform
the single detection pass. -/
def mkAlgorithm (impl : AlgoImpl) (matcher : Matcher) (df : DataFrame)
    (test : Test) (opts : Options) (mc : List (String × ℚ)) : Algorithm :=
  { impl := impl, matcher := matcher, dataframe := df, test := test,
    options := opts, metrics_config := mc,
    detection := detect impl df test opts }

/-- pkg/algorithm.py Algorithm.output_json via the spec's renderStructured
contract: the test's name paired with the structured rendering of the
instance's detection result. -/
def Algorithm.output_json (a : Algorithm) : String × ResultData :=
  (a.test.name, .structured a.detection)

/-- pkg/algorithm.py Algorithm.output_text via the spec's renderTabular
contract: the test's name paired with the tabular rendering of the
instance's detection result. -/
def Algorithm.output_text (a : Algorithm) : String × ResultData :=
  (a.test.name, .tabular (renderTable a.detection))

/-- pkg/algorithm.py Algorithm.output: dispatch on the output format — json
selects output_json, text selects output_text, anything else raises
ValueError with the literal (not interpolated) message of line 39. -/
def Algorithm.output (a : Algorithm) (output_format : String) :
    Except PyError (String × ResultData) :=
  if output_format == JSON then .ok a.output_json
  else if output_format == TEXT then .ok a.output_text
  else .error (.valueError "Unsupported output format {output_format} selected")

/-- pkg/algorithmFactory.py AlgorithmFactory.instantiate_algorithm: the
EDivisive name yields an EDivisive instance, the isolation-forest name
yields an IsolationForestWeightedMean instance, and any other name raises
ValueError "Invalid algorithm called"; no other validation is performed. -/
def AlgorithmFactory.instantiate_algorithm (algorithm : String)
    (matcher : Matcher) (df : DataFrame) (test : Test) (opts : Options)
    (mc : List (String × ℚ)) : Except PyError Algorithm :=
  if algorithm == EDIVISIVE then
    .ok (mkAlgorithm .EDivisive matcher df test opts mc)
  else if algorithm == ISOLATION_FOREST then
    .ok (mkAlgorithm .IsolationForestWeightedMean matcher df test opts mc)
  else .error (.valueError "Invalid algorithm called")

/-- A Python dict assignment d[k] = v on a dict modelled as an ordered
association list: an existing key keeps its position and gets the new
value, a new key is appended. -/
def dictInsert (d : List (String × ResultData)) (k : String) (v : ResultData) :
    List (String × ResultData) :=
  if d.any (fun p => p.1 == k) then
    d.map (fun p => if p.1 == k then (k, v) else p)
  else d ++ [(k, v)]

/-- Decidable equality of Except values with decidable components. -/
instance {ε α : Type} [DecidableEq ε] [DecidableEq α] :
    DecidableEq (Except ε α) := fun x y =>
  match x, y with
  | .ok a, .ok b =>
    if h : a = b then .isTrue (congrArg Except.ok h)
    else .isFalse (fun hh => h (Except.ok.inj hh))
  | .error a, .error b =>
    if h : a = b then .isTrue (congrArg Except.error h)
    else .isFalse (fun hh => h (Except.error.inj hh))
  | .ok _, .error _ => .isFalse (fun hh => Except.noConfusion hh)
  | .error _, .ok _ => .isFalse (fun hh => Except.noConfusion hh)

/-- The outcome of pkg/runTest.run: the returned value (an exception, the
None returned on an empty fetch, or the assembled report dict), together
with a trace of the detector dispatches the run performed — each entry is
the algorithm name and the index of the test it was dispatched for. -/
structure RunOutcome where
  result : Except PyError (Option (List (String × ResultData)))
  dispatched : List (String × Nat)
deriving DecidableEq

/-- The loop body of pkg/runTest.run over the remaining tests, carrying the
absolute index k of the next test, the report dict acc built so far and the
dispatch trace: fetch the test's dataframe (the fetch argument stands for
process_test with the invocation-constant arguments closed over); a None
dataframe returns None immediately; otherwise the hunter_analyze flag
dispatches the EDivisive algorithm, else the anomaly_detection flag
dispatches the isolation-forest algorithm, else no detector runs; a raised
error propagates immediately. -/
def runAux (es_url : String) (opts : Options) (fetch : Test → Option DataFrame) :
    List Test → Nat → List (String × ResultData) → List (String × Nat) →
    RunOutcome
  | [], _, acc, tr => ⟨.ok (some acc), tr⟩
  | t :: ts, k, acc, tr =>
    match fetch t with
    | none => ⟨.ok none, tr⟩
    | some df =>
      let matcher : Matcher := ⟨t.index, es_url⟩
      if opts.hunter_analyze then
        match AlgorithmFactory.instantiate_algorithm EDIVISIVE matcher df t
          opts [] with
        | .error e => ⟨.error e, tr⟩
        | .ok alg =>
          match alg.output opts.output_format with
          | .error e => ⟨.error e, tr ++ [(EDIVISIVE, k)]⟩
          | .ok (testname, result_data) =>
            runAux es_url opts fetch ts (k + 1)
              (dictInsert acc testname result_data) (tr ++ [(EDIVISIVE, k)])
      else if opts.anomaly_detection then
        match AlgorithmFactory.instantiate_algorithm ISOLATION_FOREST matcher
          df t opts [] with
        | .error e => ⟨.error e, tr⟩
        | .ok alg =>
          match alg.output opts.output_format with
          | .error e => ⟨.error e, tr ++ [(ISOLATION_FOREST, k)]⟩
          | .ok (testname, result_data) =>
            runAux es_url opts fetch ts (k + 1)
              (dictInsert acc testname result_data)
              (tr ++ [(ISOLATION_FOREST, k)])
      else runAux es_url opts fetch ts (k + 1) acc tr

/-- pkg/runTest.run: iterate the configured tests in order, starting from
an empty report dict. -/
def run (cfg : ConfigMap) (opts : Options) (fetch : Test → Option DataFrame) :
    RunOutcome :=
  runAux cfg.es_url opts fetch cfg.tests 0 [] []

/-- The user-visible outcome of orion.py cmd_analysis: an uncaught
exception, the termination path (log message and process exit code), or the
printed report blocks. -/
inductive CliOutcome where
  | crashed (e : PyError)
  | terminated (logMsg : String) (exitCode : Nat)
  | printed (lines : List String)
deriving DecidableEq

/-- orion.py cmd_analysis (lines 104-120): load the configuration, convey
the options to run, and on a None result log "Terminating test" and exit
with status 0; otherwise print each test's name, an underline, and its
result; a raised error propagates uncaught. -/
def cmd_analysis (cfg : ConfigMap) (opts : Options)
    (fetch : Test → Option DataFrame) : CliOutcome :=
  match (run cfg opts fetch).result with
  | .error e => .crashed e
  | .ok none => .terminated "Terminating test" 0
  | .ok (some output) =>
    .printed (output.flatMap (fun p =>
      [p.1, String.mk (List.replicate p.1.length (Char.ofNat 61)),
        match p.2 with
        | .structured _ => "structured"
        | .tabular s => s]))

/-- Whether a run result is a returned (non-None) report mapping. -/
def isPartialReport : Except PyError (Option (List (String × ResultData))) → Bool
  | .ok (some _) => true
  | _ => false

/-- Whether a CLI outcome printed a report. -/
def isPrinted : CliOutcome → Bool
  | .printed _ => true
  | _ => false

/-- Whether a CLI outcome is an uncaught exception. -/
def isCrashed : CliOutcome → Bool
  | .crashed _ => true
  | _ => false

/-- The detection kind selected by an option bag, when exactly the flag
precedence of pkg/runTest.run is applied: hunter_analyze first, then
anomaly_detection, else none. -/
def selectedImpl (opts : Options) : Option AlgoImpl :=
  if opts.hunter_analyze then some .EDivisive
  else if opts.anomaly_detection then some .IsolationForestWeightedMean
  else none

/-- The algorithm-name constant of each implementation. -/
def algoName : AlgoImpl → String
  | .EDivisive => EDIVISIVE
  | .IsolationForestWeightedMean => ISOLATION_FOREST

/-- The report entry the orchestrator stores for one successfully evaluated
test: the pair returned by the selected algorithm's renderer for the
configured output format. -/
def testEntry (es : String) (opts : Options) (fetch : Test → Option DataFrame)
    (impl : AlgoImpl) (t : Test) : String × ResultData :=
  match fetch t with
  | none => (t.name, .tabular "")
  | some df =>
    if opts.output_format == JSON then
      (mkAlgorithm impl ⟨t.index, es⟩ df t opts []).output_json
    else (mkAlgorithm impl ⟨t.index, es⟩ df t opts []).output_text

lemma instantiate_edivisive (m : Matcher) (df : DataFrame) (t : Test)
    (o : Options) (mc : List (String × ℚ)) :
    AlgorithmFactory.instantiate_algorithm EDIVISIVE m df t o mc =
      .ok (mkAlgorithm .EDivisive m df t o mc) := rfl

lemma instantiate_isolation (m : Matcher) (df : DataFrame) (t : Test)
    (o : Options) (mc : List (String × ℚ)) :
    AlgorithmFactory.instantiate_algorithm ISOLATION_FOREST m df t o mc =
      .ok (mkAlgorithm .IsolationForestWeightedMean m df t o mc) := rfl

/-- An empty fetch anywhere in the remaining tests forces the loop to end in
the None return, with every dispatch beyond the already-recorded trace
strictly before the position of the empty fetch. -/
lemma runAux_empty_fetch_aborts (es : String) (opts : Options)
    (fetch : Test → Option DataFrame) :
    ∀ (ts : List Test) (k : Nat) (acc : List (String × ResultData))
      (tr : List (String × Nat)) (i : Nat) (hi : i < ts.length),
      fetch (ts.get ⟨i, hi⟩) = none →
      isPartialReport (runAux es opts fetch ts k acc tr).result = false ∧
      ∀ p ∈ (runAux es opts fetch ts k acc tr).dispatched,
        p ∈ tr ∨ p.2 < k + i := by
  intro ts
  induction ts with
  | nil => intro k acc tr i hi; simp at hi
  | cons t ts ih =>
    intro k acc tr i hi hnone
    cases i with
    | zero =>
      have ht : fetch t = none := hnone
      simp only [runAux, ht]
      exact ⟨rfl, fun p hp => Or.inl hp⟩
    | succ i' =>
      have hi' : i' < ts.length := by simpa using Nat.lt_of_succ_lt_succ hi
      have hnone' : fetch (ts.get ⟨i', hi'⟩) = none := hnone
      cases hft : fetch t with
      | none =>
        simp only [runAux, hft]
        exact ⟨rfl, fun p hp => Or.inl hp⟩
      | some df =>
        simp only [runAux, hft]
        by_cases hh : opts.hunter_analyze
        · simp only [hh, if_true, instantiate_edivisive]
          cases hout : (mkAlgorithm .EDivisive ⟨t.index, es⟩ df t opts
              []).output opts.output_format with
          | error e =>
            refine ⟨rfl, fun p hp => ?_⟩
            rcases List.mem_append.mp hp with hin | hin
            · exact Or.inl hin
            · right
              have : p = (EDIVISIVE, k) := by simpa using hin
              subst this; omega
          | ok pr =>
            obtain ⟨tn, rd⟩ := pr
            have h := ih (k + 1) (dictInsert acc tn rd)
              (tr ++ [(EDIVISIVE, k)]) i' hi' hnone'
            refine ⟨h.1, fun p hp => ?_⟩
            rcases h.2 p hp with hin | hlt
            · rcases List.mem_append.mp hin with hin' | hin'
              · exact Or.inl hin'
              · right
                have : p = (EDIVISIVE, k) := by simpa using hin'
                subst this; omega
            · right; omega
        · simp only [hh, if_false]
          by_cases ha : opts.anomaly_detection
          · simp only [ha, if_true, instantiate_isolation]
            cases hout : (mkAlgorithm .IsolationForestWeightedMean
                ⟨t.index, es⟩ df t opts []).output opts.output_format with
            | error e =>
              refine ⟨rfl, fun p hp => ?_⟩
              rcases List.mem_append.mp hp with hin | hin
              · exact Or.inl hin
              · right
                have : p = (ISOLATION_FOREST, k) := by simpa using hin
                subst this; omega
            | ok pr =>
              obtain ⟨tn, rd⟩ := pr
              have h := ih (k + 1) (dictInsert acc tn rd)
                (tr ++ [(ISOLATION_FOREST, k)]) i' hi' hnone'
              refine ⟨h.1, fun p hp => ?_⟩
              rcases h.2 p hp with hin | hlt
              · rcases List.mem_append.mp hin with hin' | hin'
                · exact Or.inl hin'
                · right
                  have : p = (ISOLATION_FOREST, k) := by simpa using hin'
                  subst this; omega
              · right; omega
          · simp only [ha, if_false]
            have h := ih (k + 1) acc tr i' hi' hnone'
            refine ⟨h.1, fun p hp => ?_⟩
            rcases h.2 p hp with hin | hlt
            · exact Or.inl hin
            · right; omega

lemma output_json_fmt (a : Algorithm) : a.output JSON = .ok a.output_json := rfl

lemma output_text_fmt (a : Algorithm) : a.output TEXT = .ok a.output_text := rfl

lemma dictInsert_of_not_mem (d : List (String × ResultData)) (k : String)
    (v : ResultData) (h : ∀ p ∈ d, p.1 ≠ k) :
    dictInsert d k v = d ++ [(k, v)] := by
  have hneg : ¬(d.any (fun p => p.1 == k) = true) := by
    rw [List.any_eq_true]
    rintro ⟨p, hp, hbeq⟩
    exact h p hp (by simpa using hbeq)
  unfold dictInsert
  rw [if_neg hneg]

lemma testEntry_fst (es : String) (opts : Options)
    (fetch : Test → Option DataFrame) (impl : AlgoImpl) (t : Test) :
    (testEntry es opts fetch impl t).1 = t.name := by
  unfold testEntry
  cases hdf : fetch t with
  | none => rfl
  | some df =>
    by_cases hj : (opts.output_format == JSON) = true
    · simp [hj, Algorithm.output_json, mkAlgorithm]
    · simp [hj, Algorithm.output_text, mkAlgorithm]

lemma testEntry_output (es : String) (opts : Options)
    (fetch : Test → Option DataFrame) (impl : AlgoImpl) (t : Test)
    (df : DataFrame) (hft : fetch t = some df)
    (hfmt : opts.output_format = JSON ∨ opts.output_format = TEXT) :
    (mkAlgorithm impl ⟨t.index, es⟩ df t opts []).output opts.output_format =
      .ok (testEntry es opts fetch impl t) := by
  rcases hfmt with hf | hf
  · rw [hf, output_json_fmt]
    simp only [testEntry, hft]
    rw [hf, if_pos (show (JSON == JSON) = true from rfl)]
  · rw [hf, output_text_fmt]
    simp only [testEntry, hft]
    rw [hf, if_neg (show ¬((TEXT == JSON) = true) from by decide)]

/-- When a detection kind is selected, the output format is one of the two
supported ones, every fetch succeeds and the test names collide neither with
the accumulated report keys nor with each other, the loop returns the
accumulated report extended by one entry per remaining test. -/
lemma runAux_all_success (es : String) (opts : Options)
    (fetch : Test → Option DataFrame) (impl : AlgoImpl)
    (himpl : selectedImpl opts = some impl)
    (hfmt : opts.output_format = JSON ∨ opts.output_format = TEXT) :
    ∀ (ts : List Test) (k : Nat) (acc : List (String × ResultData))
      (tr : List (String × Nat)),
      (∀ t ∈ ts, fetch t ≠ none) →
      (acc.map Prod.fst ++ ts.map Test.name).Nodup →
      (runAux es opts fetch ts k acc tr).result =
        .ok (some (acc ++ ts.map (testEntry es opts fetch impl))) := by
  intro ts
  induction ts with
  | nil => intro k acc tr _ _; simp [runAux]
  | cons t ts ih =>
    intro k acc tr hfetch hnodup
    obtain ⟨df, hft⟩ : ∃ df, fetch t = some df := by
      cases hdf : fetch t with
      | none => exact absurd hdf (hfetch t (by simp))
      | some df => exact ⟨df, rfl⟩
    have hnotmem : ∀ p ∈ acc, p.1 ≠ t.name := by
      intro p hp he
      refine (List.nodup_append.mp hnodup).2.2
        (List.mem_map_of_mem Prod.fst hp) ?_
      rw [he]
      exact List.mem_cons_self _ _
    have hdict : dictInsert acc (testEntry es opts fetch impl t).1
        (testEntry es opts fetch impl t).2 =
        acc ++ [testEntry es opts fetch impl t] := by
      rw [testEntry_fst]
      have := dictInsert_of_not_mem acc t.name
        (testEntry es opts fetch impl t).2 hnotmem
      rw [this]
      congr 1
      rw [← testEntry_fst es opts fetch impl t]
    have hnodup' : ((acc ++ [testEntry es opts fetch impl t]).map Prod.fst ++
        ts.map Test.name).Nodup := by
      simp only [List.map_append, List.map_cons, List.map_nil,
        testEntry_fst, List.append_assoc, List.singleton_append]
      simpa using hnodup
    have hfetch' : ∀ u ∈ ts, fetch u ≠ none := fun u hu =>
      hfetch u (List.mem_cons_of_mem t hu)
    have hrest := ih (k + 1) (acc ++ [testEntry es opts fetch impl t])
    simp only [runAux, hft]
    by_cases hh : opts.hunter_analyze
    · have himpl' : impl = .EDivisive := by
        unfold selectedImpl at himpl
        rw [if_pos hh] at himpl
        exact (Option.some.inj himpl).symm
      subst himpl'
      simp only [hh, if_true, instantiate_edivisive,
        testEntry_output es opts fetch .EDivisive t df hft hfmt]
      rw [hdict]
      rw [hrest (tr ++ [(EDIVISIVE, k)]) hfetch' hnodup']
      simp [List.append_assoc]
    · have hh' : opts.hunter_analyze = false := by
        cases hhb : opts.hunter_analyze with
        | false => rfl
        | true => exact absurd hhb hh
      have ha : opts.anomaly_detection = true := by
        unfold selectedImpl at himpl
        rw [if_neg hh] at himpl
        by_cases ha' : opts.anomaly_detection
        · exact ha'
        · rw [if_neg ha'] at himpl; exact absurd himpl (by simp)
      have himpl' : impl = .IsolationForestWeightedMean := by
        unfold selectedImpl at himpl
        rw [if_neg hh, if_pos ha] at himpl
        exact (Option.some.inj himpl).symm
      subst himpl'
      simp only [hh', Bool.false_eq_true, if_false, ha, if_true,
        instantiate_isolation,
        testEntry_output es opts fetch .IsolationForestWeightedMean t df hft
          hfmt]
      rw [hdict]
      rw [hrest (tr ++ [(ISOLATION_FOREST, k)]) hfetch' hnodup']
      simp [List.append_assoc]

/-- Every dispatch the loop records beyond the incoming trace carries the
algorithm selected by the flags: the EDivisive name when hunter_analyze is
set, the isolation-forest name when only anomaly_detection is set; with
neither flag set nothing is ever recorded. -/
lemma runAux_dispatch_mem (es : String) (opts : Options)
    (fetch : Test → Option DataFrame) :
    ∀ (ts : List Test) (k : Nat) (acc : List (String × ResultData))
      (tr : List (String × Nat)) (p : String × Nat),
      p ∈ (runAux es opts fetch ts k acc tr).dispatched →
      p ∈ tr ∨ (opts.hunter_analyze = true ∧ p.1 = EDIVISIVE) ∨
        (opts.hunter_analyze = false ∧ opts.anomaly_detection = true ∧
          p.1 = ISOLATION_FOREST) := by
  intro ts
  induction ts with
  | nil => intro k acc tr p hp; exact Or.inl hp
  | cons t ts ih =>
    intro k acc tr p hp
    cases hft : fetch t with
    | none =>
      simp only [runAux, hft] at hp
      exact Or.inl hp
    | some df =>
      simp only [runAux, hft] at hp
      by_cases hh : opts.hunter_analyze
      · simp only [hh, if_true, instantiate_edivisive] at hp
        cases hout : (mkAlgorithm .EDivisive ⟨t.index, es⟩ df t opts
            []).output opts.output_format with
        | error e =>
          rw [hout] at hp
          simp only at hp
          rcases List.mem_append.mp hp with hin | hin
          · exact Or.inl hin
          · have : p = (EDIVISIVE, k) := by simpa using hin
            exact Or.inr (Or.inl ⟨hh, by rw [this]⟩)
        | ok pr =>
          obtain ⟨tn, rd⟩ := pr
          rw [hout] at hp
          simp only at hp
          rcases ih (k + 1) (dictInsert acc tn rd) (tr ++ [(EDIVISIVE, k)])
            p hp with hin | hrest
          · rcases List.mem_append.mp hin with hin' | hin'
            · exact Or.inl hin'
            · have : p = (EDIVISIVE, k) := by simpa using hin'
              exact Or.inr (Or.inl ⟨hh, by rw [this]⟩)
          · exact Or.inr hrest
      · have hh' : opts.hunter_analyze = false := by
          cases hhb : opts.hunter_analyze with
          | false => rfl
          | true => exact absurd hhb hh
        simp only [hh', Bool.false_eq_true, if_false] at hp
        by_cases ha : opts.anomaly_detection
        · simp only [ha, if_true, instantiate_isolation] at hp
          cases hout : (mkAlgorithm .IsolationForestWeightedMean
              ⟨t.index, es⟩ df t opts []).output opts.output_format with
          | error e =>
            rw [hout] at hp
            simp only at hp
            rcases List.mem_append.mp hp with hin | hin
            · exact Or.inl hin
            · have : p = (ISOLATION_FOREST, k) := by simpa using hin
              exact Or.inr (Or.inr ⟨hh', ha, by rw [this]⟩)
          | ok pr =>
            obtain ⟨tn, rd⟩ := pr
            rw [hout] at hp
            simp only at hp
            rcases ih (k + 1) (dictInsert acc tn rd)
              (tr ++ [(ISOLATION_FOREST, k)]) p hp with hin | hrest
            · rcases List.mem_append.mp hin with hin' | hin'
              · exact Or.inl hin'
              · have : p = (ISOLATION_FOREST, k) := by simpa using hin'
                exact Or.inr (Or.inr ⟨hh', ha, by rw [this]⟩)
            · exact Or.inr hrest
        · have ha' : opts.anomaly_detection = false := by
            cases hab : opts.anomaly_detection with
            | false => rfl
            | true => exact absurd hab ha
          simp only [ha', Bool.false_eq_true, if_false] at hp
          rcases ih (k + 1) acc tr p hp with hin | hrest
          · exact Or.inl hin
          · exact Or.inr hrest

/-- With neither detection flag set, the loop only walks the tests whose
fetch succeeds: it dispatches nothing, accumulates nothing, and returns the
incoming report unchanged when every fetch succeeds. -/
lemma runAux_no_flags (es : String) (opts : Options)
    (fetch : Test → Option DataFrame)
    (hh : opts.hunter_analyze = false) (ha : opts.anomaly_detection = false) :
    ∀ (ts : List Test) (k : Nat) (acc : List (String × ResultData))
      (tr : List (String × Nat)),
      (∀ t ∈ ts, fetch t ≠ none) →
      runAux es opts fetch ts k acc tr = ⟨.ok (some acc), tr⟩ := by
  intro ts
  induction ts with
  | nil => intro k acc tr _; rfl
  | cons t ts ih =>
    intro k acc tr hfetch
    obtain ⟨df, hft⟩ : ∃ df, fetch t = some df := by
      cases hdf : fetch t with
      | none => exact absurd hdf (hfetch t (by simp))
      | some df => exact ⟨df, rfl⟩
    simp only [runAux, hft, hh, ha, Bool.false_eq_true, if_false]
    exact ih (k + 1) acc tr (fun u hu => hfetch u (List.mem_cons_of_mem t hu))

/-- Fixture: four runs of one metric with a level shift from 100 to 150. -/
def dfShift : DataFrame :=
  ⟨[⟨"u1", 1, [("duration", 100)]⟩, ⟨"u2", 2, [("duration", 100)]⟩,
    ⟨"u3", 3, [("duration", 150)]⟩, ⟨"u4", 4, [("duration", 150)]⟩]⟩

/-- Fixture: a test over the duration metric, lower is better. -/
def testLower : Test := ⟨"cluster-density", "idx1", [⟨"duration", false⟩]⟩

/-- Fixture: a test with the same name as testLower but the opposite
direction, so its detection result differs. -/
def testHigher : Test := ⟨"cluster-density", "idx2", [⟨"duration", true⟩]⟩

/-- Fixture: a test with a distinct name. -/
def testNode : Test := ⟨"node-density", "idx3", [⟨"duration", false⟩]⟩

/-- Fixture: options selecting change-point detection with json output. -/
def optsHunter : Options :=
  ⟨true, false, JSON, none, "", "", "", false, none, none⟩

/-- Fixture: an option bag with both detection flags set. -/
def optsBothFlags : Options :=
  ⟨true, true, JSON, none, "", "", "", false, none, none⟩

/-- Fixture: an option bag with neither detection flag set. -/
def optsNoFlags : Options :=
  ⟨false, false, JSON, none, "", "", "", false, none, none⟩

/-- Fixture: every fetch succeeds with the shifted dataframe. -/
def fetchAll : Test → Option DataFrame := fun _ => some dfShift

/-- Fixture: every fetch returns the empty result. -/
def fetchOut : Test → Option DataFrame := fun _ => none

/-- Fixture: the fetch of the node-density test returns the empty result,
every other fetch succeeds. -/
def fetchSecondEmpty : Test → Option DataFrame :=
  fun t => if t.name == "node-density" then none else some dfShift

/-- Fixture: a concrete change-point algorithm instance. -/
def algFix : Algorithm :=
  mkAlgorithm .EDivisive ⟨"idx1", "es"⟩ dfShift testLower optsHunter []

/-- Claim C1: if the dataset fetch for any configured test returns the
empty result, pkg/runTest.run aborts the entire multi-test run: no detector
is dispatched for that test or for any later test, and the caller receives
no report mapping at all, not even for the earlier tests that succeeded. -/
theorem run_aborts_run_on_empty_fetch (cfg : ConfigMap) (opts : Options)
    (fetch : Test → Option DataFrame) (i : Nat) (hi : i < cfg.tests.length)
    (hempty : fetch (cfg.tests.get ⟨i, hi⟩) = none) :
    isPartialReport (run cfg opts fetch).result = false ∧
    (run cfg opts fetch).dispatched.all (fun p => decide (p.2 < i)) = true := by
  have h := runAux_empty_fetch_aborts cfg.es_url opts fetch cfg.tests 0 [] []
    i hi hempty
  refine ⟨h.1, ?_⟩
  rw [List.all_eq_true]
  intro p hp
  rcases h.2 p hp with hc | hc
  · simp at hc
  · simpa using hc

/-- Witness for C1: a two-test configuration whose second fetch is empty. -/
theorem run_aborts_run_on_empty_fetch_w :
    isPartialReport (run ⟨"es", [testLower, testNode]⟩ optsHunter
      fetchSecondEmpty).result = false ∧
    (run ⟨"es", [testLower, testNode]⟩ optsHunter
      fetchSecondEmpty).dispatched.all (fun p => decide (p.2 < 1)) = true :=
  run_aborts_run_on_empty_fetch ⟨"es", [testLower, testNode]⟩ optsHunter
    fetchSecondEmpty 1 (by decide) (by decide)

/-- Counterexample for C2: the option bag of the code carries the two
detection kinds as two independent booleans, so an invocation with both
kinds selected is representable; pkg/runTest.run accepts it and the
hunter_analyze branch shadows anomaly_detection. -/
theorem options_both_kinds_representable :
    optsBothFlags.hunter_analyze = true ∧
    optsBothFlags.anomaly_detection = true ∧
    (run ⟨"es", [testLower]⟩ optsBothFlags fetchAll).dispatched =
      [(EDIVISIVE, 0)] ∧
    isPartialReport (run ⟨"es", [testLower]⟩ optsBothFlags fetchAll).result =
      true := by
  refine ⟨rfl, rfl, ?_, ?_⟩ <;> decide

/-- Claim C2 amended: Options carry the detection kinds as two independent
boolean flags, not a single enum field, so both-selected and
neither-selected states are representable; the orchestrator checks
hunter_analyze first, so every dispatch carries the change-point algorithm
when hunter_analyze is set, the anomaly algorithm when only
anomaly_detection is set, and no detector at all when neither is set;
mutual exclusivity is enforced only at the CLI boundary by parse-time
flag-conflict checks. -/
theorem run_flag_precedence (cfg : ConfigMap) (opts : Options)
    (fetch : Test → Option DataFrame) :
    (opts.hunter_analyze = true →
      (run cfg opts fetch).dispatched.all
        (fun p => p.1 == EDIVISIVE) = true) ∧
    (opts.hunter_analyze = false → opts.anomaly_detection = true →
      (run cfg opts fetch).dispatched.all
        (fun p => p.1 == ISOLATION_FOREST) = true) ∧
    (opts.hunter_analyze = false → opts.anomaly_detection = false →
      (run cfg opts fetch).dispatched = []) := by
  refine ⟨?_, ?_, ?_⟩
  · intro hh
    rw [List.all_eq_true]
    intro p hp
    rcases runAux_dispatch_mem cfg.es_url opts fetch cfg.tests 0 [] [] p hp
      with hin | h | h
    · simp at hin
    · simpa using h.2
    · rw [hh] at h; exact absurd h.1 (by simp)
  · intro hh ha
    rw [List.all_eq_true]
    intro p hp
    rcases runAux_dispatch_mem cfg.es_url opts fetch cfg.tests 0 [] [] p hp
      with hin | h | h
    · simp at hin
    · rw [hh] at h; exact absurd h.1 (by simp)
    · simpa using h.2.2
  · intro hh ha
    rw [List.eq_nil_iff_forall_not_mem]
    intro p hp
    rcases runAux_dispatch_mem cfg.es_url opts fetch cfg.tests 0 [] [] p hp
      with hin | h | h
    · simp at hin
    · rw [hh] at h; exact absurd h.1 (by simp)
    · rw [ha] at h; exact absurd h.2.1 (by simp)

/-- Witness for the amended C2 at an option bag with both flags set: only
the change-point algorithm is dispatched. -/
theorem run_flag_precedence_w :
    (run ⟨"es", [testLower]⟩ optsBothFlags fetchAll).dispatched.all
      (fun p => p.1 == EDIVISIVE) = true :=
  (run_flag_precedence ⟨"es", [testLower]⟩ optsBothFlags fetchAll).1 rfl

/-- Claim C3: for every dataset, test, options and metrics configuration the
factory maps the EDivisive kind to the EDivisive change-point detector and
the isolation-forest kind to the weighted isolation-forest detector, and
fails with the invalid-algorithm ValueError on any other kind; it performs
no validation of the other inputs. -/
theorem instantiate_algorithm_spec (m : Matcher) (df : DataFrame) (t : Test)
    (o : Options) (mc : List (String × ℚ)) (kind : String) :
    AlgorithmFactory.instantiate_algorithm EDIVISIVE m df t o mc =
      .ok (mkAlgorithm .EDivisive m df t o mc) ∧
    AlgorithmFactory.instantiate_algorithm ISOLATION_FOREST m df t o mc =
      .ok (mkAlgorithm .IsolationForestWeightedMean m df t o mc) ∧
    (kind ≠ EDIVISIVE → kind ≠ ISOLATION_FOREST →
      AlgorithmFactory.instantiate_algorithm kind m df t o mc =
        .error (.valueError "Invalid algorithm called")) := by
  refine ⟨rfl, rfl, fun h1 h2 => ?_⟩
  unfold AlgorithmFactory.instantiate_algorithm
  rw [if_neg (fun hc => h1 (by simpa using hc)),
    if_neg (fun hc => h2 (by simpa using hc))]

/-- Witness for C3 at concrete inputs, including the unknown kind. -/
theorem instantiate_algorithm_spec_w :
    AlgorithmFactory.instantiate_algorithm EDIVISIVE ⟨"idx1", "es"⟩ dfShift
      testLower optsHunter [] =
      .ok (mkAlgorithm .EDivisive ⟨"idx1", "es"⟩ dfShift testLower
        optsHunter []) ∧
    AlgorithmFactory.instantiate_algorithm ISOLATION_FOREST ⟨"idx1", "es"⟩
      dfShift testLower optsHunter [] =
      .ok (mkAlgorithm .IsolationForestWeightedMean ⟨"idx1", "es"⟩ dfShift
        testLower optsHunter []) ∧
    AlgorithmFactory.instantiate_algorithm "unknown" ⟨"idx1", "es"⟩ dfShift
      testLower optsHunter [] =
      .error (.valueError "Invalid algorithm called") := by
  obtain ⟨h1, h2, h3⟩ := instantiate_algorithm_spec ⟨"idx1", "es"⟩ dfShift
    testLower optsHunter [] "unknown"
  exact ⟨h1, h2, h3 (by decide) (by decide)⟩

/-- Claim C4: Algorithm.output with the json format returns the structured
renderer's result, with the text format the tabular renderer's result, and
with any other format fails with the unsupported-format ValueError; no
other outcome is possible. -/
theorem output_spec (a : Algorithm) (fmt : String) :
    (fmt = JSON → a.output fmt = .ok a.output_json) ∧
    (fmt = TEXT → a.output fmt = .ok a.output_text) ∧
    (fmt ≠ JSON → fmt ≠ TEXT →
      a.output fmt = .error (.valueError
        "Unsupported output format {output_format} selected")) := by
  refine ⟨fun h => by rw [h, output_json_fmt],
    fun h => by rw [h, output_text_fmt], fun h1 h2 => ?_⟩
  unfold Algorithm.output
  rw [if_neg (fun hc => h1 (by simpa using hc)),
    if_neg (fun hc => h2 (by simpa using hc))]

/-- Witness for C4 at a concrete instance and the three format cases. -/
theorem output_spec_w :
    algFix.output JSON = .ok algFix.output_json ∧
    algFix.output TEXT = .ok algFix.output_text ∧
    algFix.output "csv" = .error (.valueError
      "Unsupported output format {output_format} selected") :=
  ⟨(output_spec algFix JSON).1 rfl, (output_spec algFix TEXT).2.1 rfl,
    (output_spec algFix "csv").2.2 (by decide) (by decide)⟩

/-- Counterexample for C5: two configured tests sharing one name both fetch
and detect successfully, yet the returned mapping holds a single entry —
the second test's result overwrote the first — so the report does not
contain one entry per configured test holding that test's result. -/
theorem run_report_collapses_duplicate_names :
    (run ⟨"es", [testLower, testHigher]⟩ optsHunter fetchAll).result =
      .ok (some [("cluster-density",
        .structured (detect .EDivisive dfShift testHigher optsHunter))]) ∧
    (⟨"es", [testLower, testHigher]⟩ : ConfigMap).tests.length = 2 :=
  ⟨rfl, rfl⟩

/-- Claim C5 amended: when a detection kind is selected, the output format
is one of the two supported ones, every configured test's fetch succeeds
and the configured test names are pairwise distinct, run returns the
complete report: exactly one entry per configured test, keyed by that
test's name and holding that test's detection result (tests sharing one
name collapse into the last one's entry, as the counterexample shows); the
returned mapping is a value fixed for the invocation. -/
theorem run_complete_report (cfg : ConfigMap) (opts : Options)
    (fetch : Test → Option DataFrame) (impl : AlgoImpl)
    (himpl : selectedImpl opts = some impl)
    (hfmt : opts.output_format = JSON ∨ opts.output_format = TEXT)
    (hfetch : ∀ t ∈ cfg.tests, fetch t ≠ none)
    (hnames : (cfg.tests.map Test.name).Nodup) :
    (run cfg opts fetch).result =
      .ok (some (cfg.tests.map (testEntry cfg.es_url opts fetch impl))) ∧
    cfg.tests.all
      (fun t => (testEntry cfg.es_url opts fetch impl t).1 == t.name) =
      true := by
  constructor
  · have := runAux_all_success cfg.es_url opts fetch impl himpl hfmt
      cfg.tests 0 [] [] hfetch (by simpa using hnames)
    simpa using this
  · rw [List.all_eq_true]
    intro t _
    simp [testEntry_fst]

/-- Witness for the amended C5: two distinctly named tests, both fetched
and detected successfully. -/
theorem run_complete_report_w :
    (run ⟨"es", [testLower, testNode]⟩ optsHunter fetchAll).result =
      .ok (some ([testLower, testNode].map
        (testEntry "es" optsHunter fetchAll .EDivisive))) ∧
    ([testLower, testNode] : List Test).all
      (fun t => (testEntry "es" optsHunter fetchAll .EDivisive t).1 ==
        t.name) = true :=
  run_complete_report ⟨"es", [testLower, testNode]⟩ optsHunter fetchAll
    .EDivisive rfl (Or.inl rfl) (by decide) (by decide)

/-- Counterexample for C6: the fetch of the only configured test
"cluster-density" returns the empty result; the invocation ends by logging
the fixed message "Terminating test" and exiting with status 0 — a message
that names neither the failing test nor the reason (and exit status 0 is
the success code, not a failure), refuting the claim that the terminal
outcome names the failing test and the reason. -/
theorem cmd_analysis_generic_termination :
    cmd_analysis ⟨"es", [testLower]⟩ optsHunter fetchOut =
      .terminated "Terminating test" 0 ∧
    ¬ ("cluster-density".toList <:+: "Terminating test".toList) ∧
    ¬ ("empty".toList <:+: "Terminating test".toList) := by
  refine ⟨?_, ?_, ?_⟩ <;> decide

/-- Claim C6 amended: whenever any configured test's dataset fetch returns
the empty result, the invocation never prints a report — there is no
fallback to a default no-regression verdict — and ends either in the
generic termination path (fixed log message "Terminating test", exit status
0, naming neither the failing test nor the reason) or in an uncaught
exception raised before that test. -/
theorem cmd_analysis_no_report_on_empty (cfg : ConfigMap) (opts : Options)
    (fetch : Test → Option DataFrame) (i : Nat) (hi : i < cfg.tests.length)
    (hempty : fetch (cfg.tests.get ⟨i, hi⟩) = none) :
    isPrinted (cmd_analysis cfg opts fetch) = false ∧
    (cmd_analysis cfg opts fetch = .terminated "Terminating test" 0 ∨
      isCrashed (cmd_analysis cfg opts fetch) = true) := by
  have h : isPartialReport (run cfg opts fetch).result = false :=
    (runAux_empty_fetch_aborts cfg.es_url opts fetch cfg.tests 0 [] []
      i hi hempty).1
  unfold cmd_analysis
  cases hres : (run cfg opts fetch).result with
  | error e => exact ⟨rfl, Or.inr rfl⟩
  | ok o =>
    cases o with
    | none => exact ⟨rfl, Or.inl rfl⟩
    | some r =>
      rw [hres] at h
      simp [isPartialReport] at h

/-- Witness for the amended C6: a single test whose fetch is empty. -/
theorem cmd_analysis_no_report_on_empty_w :
    isPrinted (cmd_analysis ⟨"es", [testLower]⟩ optsHunter fetchOut) =
      false ∧
    (cmd_analysis ⟨"es", [testLower]⟩ optsHunter fetchOut =
        .terminated "Terminating test" 0 ∨
      isCrashed (cmd_analysis ⟨"es", [testLower]⟩ optsHunter fetchOut) =
        true) :=
  cmd_analysis_no_report_on_empty ⟨"es", [testLower]⟩ optsHunter fetchOut 0
    (by decide) (by decide)

/-- Claim C7: run is a function of the dataset and the options — two
invocations on pointwise-identical fetches yield identical reports — and
both renderers of any factory-made instance derive from the instance's
single stored detection pass, computed once at instantiation from the
dataframe, test and options (with the anomaly scorer's randomness fixed by
the explicit seed): requesting structured then tabular output never re-runs
detection and never changes the result. -/
theorem run_deterministic_single_pass :
    (∀ (cfg : ConfigMap) (opts : Options)
      (f1 f2 : Test → Option DataFrame),
      (∀ t, f1 t = f2 t) → run cfg opts f1 = run cfg opts f2) ∧
    (∀ (m : Matcher) (df : DataFrame) (t : Test) (o : Options)
      (mc : List (String × ℚ)) (alg : Algorithm),
      (AlgorithmFactory.instantiate_algorithm EDIVISIVE m df t o mc =
          .ok alg ∨
        AlgorithmFactory.instantiate_algorithm ISOLATION_FOREST m df t o
          mc = .ok alg) →
      alg.output JSON = .ok (t.name, .structured alg.detection) ∧
      alg.output TEXT = .ok (t.name, .tabular (renderTable alg.detection)) ∧
      alg.detection = detect alg.impl df t o) := by
  constructor
  · intro cfg opts f1 f2 hf
    rw [funext hf]
  · intro m df t o mc alg halg
    rcases halg with h | h
    · rw [instantiate_edivisive] at h
      obtain rfl := (Except.ok.inj h).symm
      exact ⟨rfl, rfl, rfl⟩
    · rw [instantiate_isolation] at h
      obtain rfl := (Except.ok.inj h).symm
      exact ⟨rfl, rfl, rfl⟩

/-- Witness for C7: determinism at two syntactically distinct but pointwise
equal fetches, and the single-pass contract at a concrete instance. -/
theorem run_deterministic_single_pass_w :
    run ⟨"es", [testLower]⟩ optsHunter fetchAll =
      run ⟨"es", [testLower]⟩ optsHunter (fun _ => some dfShift) ∧
    algFix.output JSON = .ok ("cluster-density",
      .structured algFix.detection) := by
  constructor
  · exact run_deterministic_single_pass.1 ⟨"es", [testLower]⟩ optsHunter
      fetchAll (fun _ => some dfShift) (fun _ => rfl)
  · exact (run_deterministic_single_pass.2 ⟨"idx1", "es"⟩ dfShift testLower
      optsHunter [] algFix (Or.inl rfl)).1

/-- Claim C8: on any metric series with fewer than 2 runs the change-point
detector attempts no split and reports the insufficient-data verdict — not
a change point and not a pass verdict. -/
theorem changePointDetect_insufficient (series : List ℚ)
    (higherIsBetter : Bool) (h : series.length < 2) :
    changePointDetect series higherIsBetter =
      { verdict := .insufficientData, changePoints := [],
        percentChange := 0 } := by
  unfold changePointDetect
  rw [if_pos h]

/-- Witness for C8 at a one-run series. -/
theorem changePointDetect_insufficient_w :
    changePointDetect [(5 : ℚ)] true =
      { verdict := .insufficientData, changePoints := [],
        percentChange := 0 } :=
  changePointDetect_insufficient [(5 : ℚ)] true (by decide)

/-- Counterexample for C9: with neither flag set and the single configured
test's fetch returning the empty result, run returns None rather than an
empty report mapping, so the claimed behavior does not hold for every
configuration. -/
theorem run_no_flags_empty_fetch_returns_none :
    optsNoFlags.hunter_analyze = false ∧
    optsNoFlags.anomaly_detection = false ∧
    (run ⟨"es", [testLower]⟩ optsNoFlags fetchOut).result = .ok none ∧
    (run ⟨"es", [testLower]⟩ optsNoFlags fetchOut).result ≠
      .ok (some []) := by
  refine ⟨rfl, rfl, rfl, ?_⟩
  decide

/-- Claim C9 amended: with neither detection flag set and every configured
test's fetch succeeding, run dispatches no detector and returns the empty
report mapping with no error, for any number of configured tests; if some
fetch returns the empty result, run instead aborts and returns None, as in
any configuration. -/
theorem run_no_flags_empty_report (cfg : ConfigMap) (opts : Options)
    (fetch : Test → Option DataFrame) (hh : opts.hunter_analyze = false)
    (ha : opts.anomaly_detection = false)
    (hfetch : ∀ t ∈ cfg.tests, fetch t ≠ none) :
    run cfg opts fetch = ⟨.ok (some []), []⟩ :=
  runAux_no_flags cfg.es_url opts fetch hh ha cfg.tests 0 [] [] hfetch

/-- Witness for the amended C9: two tests, both fetches succeeding, neither
flag set. -/
theorem run_no_flags_empty_report_w :
    run ⟨"es", [testLower, testNode]⟩ optsNoFlags fetchAll =
      ⟨.ok (some []), []⟩ :=
  run_no_flags_empty_report ⟨"es", [testLower, testNode]⟩ optsNoFlags
    fetchAll rfl rfl (by decide)

/-- Claim C10: for every unsupported format value the raised ValueError
carries the fixed literal message "Unsupported output format
\x7boutput_format\x7d selected" — the braces are part of the text, the
actual format value is never interpolated — so the error is identical for
all inputs. -/
theorem output_error_message_literal (a : Algorithm) (fmt fmt2 : String)
    (h1 : fmt ≠ JSON) (h2 : fmt ≠ TEXT) (h3 : fmt2 ≠ JSON)
    (h4 : fmt2 ≠ TEXT) :
    a.output fmt = .error (.valueError
      "Unsupported output format {output_format} selected") ∧
    a.output fmt = a.output fmt2 := by
  have he : ∀ (f : String), f ≠ JSON → f ≠ TEXT →
      a.output f = .error (.valueError
        "Unsupported output format {output_format} selected") := by
    intro f hja htb
    unfold Algorithm.output
    rw [if_neg (fun hc => hja (by simpa using hc)),
      if_neg (fun hc => htb (by simpa using hc))]
  rw [he fmt h1 h2, he fmt2 h3 h4]
  exact ⟨rfl, rfl⟩

/-- Witness for C10 at two concrete unsupported formats. -/
theorem output_error_message_literal_w :
    algFix.output "csv" = .error (.valueError
      "Unsupported output format {output_format} selected") ∧
    algFix.output "csv" = algFix.output "yaml" :=
  output_error_message_literal algFix "csv" "yaml" (by decide) (by decide)
    (by decide) (by decide)

end Orion
